import Mathlib

/-!
Shallow embedding of the authentication core of the Emetals web application
(multi-step auth flow controllers, field validation schemas, password-strength
heuristic, OTP resend countdown, and route-guarding middleware), together with
theorems settling the specification claims about it.

Strings of the JavaScript/TypeScript source are embedded as lists of
characters (`Str`); machine operations on them (startsWith, includes, split,
repeat, toLowerCase, trim) are defined below, faithful to their JS semantics
on the inputs the claims range over.
-/

namespace EmetalsAuth

/-- JS strings are embedded as lists of characters. -/
abbrev Str := List Char

/-- Helper of `strStartsWith` recursing on the pattern, so that the check
reduces definitionally as soon as the pattern is exhausted or a mismatch
is reached, even when the tail of the subject is not known. -/
def strHasPrefixAux (p s : Str) : Bool :=
  match p with
  | [] => true
  | d :: ds =>
    match s with
    | [] => false
    | c :: cs => c == d && strHasPrefixAux ds cs

/-- JS `s.startsWith(p)`: `p` is an initial segment of `s`. -/
def strStartsWith (s p : Str) : Bool := strHasPrefixAux p s

/-- JS `s === t` on strings: character-wise equality. -/
def strEq (s t : Str) : Bool :=
  match s, t with
  | [], [] => true
  | c :: cs, d :: ds => c == d && strEq cs ds
  | _, _ => false

/-- JS `s.includes(sub)`: `sub` occurs contiguously inside `s`. -/
def strIncludes (s sub : Str) : Bool :=
  match s with
  | [] => sub.isEmpty
  | _ :: cs => strStartsWith s sub || strIncludes cs sub

theorem strHasPrefixAux_iff (p s : Str) :
    strHasPrefixAux p s = true ↔ ∃ t, s = p ++ t := by
  induction p generalizing s with
  | nil => simp [strHasPrefixAux]
  | cons d ds ih =>
    cases s with
    | nil => simp [strHasPrefixAux]
    | cons c cs =>
      simp only [strHasPrefixAux, Bool.and_eq_true, beq_iff_eq, ih]
      constructor
      · rintro ⟨rfl, t, rfl⟩; exact ⟨t, rfl⟩
      · rintro ⟨t, h⟩
        injection h with h1 h2
        exact ⟨h1, t, h2⟩

theorem strStartsWith_iff (s p : Str) :
    strStartsWith s p = true ↔ ∃ t, s = p ++ t :=
  strHasPrefixAux_iff p s

/-- Code point of an ASCII uppercase letter, the semantics of the
source's regex test `/[A-Z]/`. -/
def isAsciiUpperChar (c : Char) : Bool :=
  decide (65 ≤ c.toNat) && decide (c.toNat ≤ 90)

/-- Code point of an ASCII lowercase letter (`/[a-z]/`). -/
def isAsciiLowerChar (c : Char) : Bool :=
  decide (97 ≤ c.toNat) && decide (c.toNat ≤ 122)

/-- Code point of an ASCII digit (`/[0-9]/`, `/\d/`). -/
def isAsciiDigitChar (c : Char) : Bool :=
  decide (48 ≤ c.toNat) && decide (c.toNat ≤ 57)

/-- A character matched by the symbol class `/[^A-Za-z0-9]/`. -/
def isSymbolChar (c : Char) : Bool :=
  !(isAsciiUpperChar c || isAsciiLowerChar c || isAsciiDigitChar c)

/-- Whitespace as recognised by JS `String.prototype.trim` and the regex
class `\s` (the ASCII members plus no-break space; further Unicode
whitespace does not occur in the claims' inputs). -/
def isJsWhitespaceChar (c : Char) : Bool :=
  c == ' ' || c == '\t' || c == '\n' || c == '\r' ||
  c == '\x0b' || c == '\x0c' || c == ' '

/-- JS `String.prototype.toLowerCase` on one character, restricted to its
ASCII action: uppercase code points 65..90 are shifted by 32. -/
def jsToLowerChar (c : Char) : Char :=
  if 65 ≤ c.toNat ∧ c.toNat ≤ 90 then Char.ofNat (c.toNat + 32) else c

/-- JS `s.toLowerCase()` (ASCII action). -/
def jsToLower (s : Str) : Str := s.map jsToLowerChar

/-- JS `s.trim()`: strip whitespace from both ends. -/
def jsTrim (s : Str) : Str :=
  (((s.dropWhile isJsWhitespaceChar).reverse.dropWhile isJsWhitespaceChar)).reverse

theorem jsToLowerChar_not_upper (c : Char) :
    isAsciiUpperChar (jsToLowerChar c) = false := by
  unfold jsToLowerChar
  split
  · rename_i h
    obtain ⟨h1, h2⟩ := h
    generalize c.toNat = n at h1 h2
    interval_cases n <;> decide
  · rename_i h
    simp only [isAsciiUpperChar, Bool.and_eq_false_iff, decide_eq_false_iff_not]
    omega

theorem mem_jsTrim (c : Char) (s : Str) (h : c ∈ jsTrim s) : c ∈ s := by
  unfold jsTrim at h
  rw [List.mem_reverse] at h
  have h2 := (List.dropWhile_sublist _).mem h
  rw [List.mem_reverse] at h2
  exact (List.dropWhile_sublist _).mem h2

theorem jsToLower_no_upper (s : Str) (c : Char) (h : c ∈ jsToLower s) :
    isAsciiUpperChar c = false := by
  unfold jsToLower at h
  obtain ⟨d, _, rfl⟩ := List.mem_map.mp h
  exact jsToLowerChar_not_upper d

/-! ## Password strength heuristic

`analyzePassword` from `src/components/auth/password-strength-bar.tsx`.
The `width` is `Math.round((score / 4) * 100)`, which is exactly
`score * 25` for the integer scores 0..4 produced here. -/

/-- Result record of `analyzePassword` (the tailwind color class is carried
as a plain string). -/
structure Strength where
  score : Nat
  label : Str
  hint : Str
  color : Str
  width : Nat
  deriving Repr, DecidableEq

/-- The `map` lookup at the end of `analyzePassword`: label/hint/color for
each clamped score 0..4. -/
def strengthBase (score : Nat) : Str × Str × Str :=
  match score with
  | 0 => ("Very weak".toList, "Too short or empty".toList, "bg-red-300".toList)
  | 1 => ("Weak".toList, "Add more characters and variety".toList, "bg-red-400".toList)
  | 2 => ("Okay".toList, "Add numbers and symbols".toList, "bg-yellow-300".toList)
  | 3 => ("Good".toList, "Use more length or different character types".toList, "bg-emerald-300".toList)
  | _ => ("Strong".toList, "Nice — hard to guess".toList, "bg-green-500".toList)

/-- `analyzePassword(password)` from `password-strength-bar.tsx`:
empty input is special-cased; otherwise +1 for length ≥ 8, +1 for ≥ 12,
+1 for character variety ≥ 2, +1 for variety ≥ 3, clamped to [0, 4]. -/
def analyzePassword (password : Str) : Strength :=
  if password.length = 0 then
    { score := 0, label := "Too short".toList, hint := "Type a password".toList,
      color := "bg-gray-200".toList, width := 0 }
  else
    let lengthPts : Nat :=
      (if 8 ≤ password.length then 1 else 0) + (if 12 ≤ password.length then 1 else 0)
    let hasLower := password.any isAsciiLowerChar
    let hasUpper := password.any isAsciiUpperChar
    let hasNumber := password.any isAsciiDigitChar
    let hasSymbol := password.any isSymbolChar
    let varietyCount :=
      [hasLower, hasUpper, hasNumber, hasSymbol].countP (fun b => b)
    let raw := lengthPts +
      ((if 2 ≤ varietyCount then 1 else 0) + (if 3 ≤ varietyCount then 1 else 0))
    let score := min 4 (max 0 raw)
    let base := strengthBase score
    { score := score, label := base.1, hint := base.2.1, color := base.2.2,
      width := score * 25 }

/-! ## OTP resend countdown

The `useEffect` interval of `OtpVerificationForm`
(`src/components/auth/otp-verification-form.tsx`): while `resendTimer > 0`
and resending is not yet enabled, each one-second tick decrements the timer;
the tick that finds the timer at 1 (or below) sets it to 0 and enables
resend. -/

structure OtpTimerState where
  resendTimer : Nat
  canResend : Bool
  deriving Repr, DecidableEq

/-- Initial countdown state: `useState(60)` and `useState(false)`. -/
def otpTimerInit : OtpTimerState := { resendTimer := 60, canResend := false }

/-- One interval tick. Outside the `resendTimer > 0 && !canResend` guard no
interval is scheduled, so the state is unchanged. -/
def otpTick (s : OtpTimerState) : OtpTimerState :=
  if 0 < s.resendTimer ∧ s.canResend = false then
    if s.resendTimer ≤ 1 then { resendTimer := 0, canResend := true }
    else { resendTimer := s.resendTimer - 1, canResend := s.canResend }
  else s

/-- The countdown state after `n` one-second ticks with no other
interaction. -/
def otpTickIter : Nat → OtpTimerState
  | 0 => otpTimerInit
  | n + 1 => otpTick (otpTickIter n)

/-! ## Validation schemas

Embeddings of the zod schemas in `src/lib/validation/`. A schema is
embedded as the list of issues it produces (field path plus message);
validation succeeds exactly when that list is empty. String checks in zod
are non-fatal: every failing check contributes its issue and later checks
still run, and an object-level `.refine` still runs when a field check
failed (the inner parse is merely dirty), so the refinement issue appears
whenever its predicate fails. The library's email-format test is taken as
a parameter `emailOk`, since its regex lives in the imported zod library,
not in this repository. -/

/-- Field paths of the registration and recovery schemas. -/
inductive FieldPath where
  | name
  | email
  | password
  | confirmPassword
  | otp
  deriving Repr, DecidableEq

/-- One zod issue: the field path it is attached to and its message. -/
abbrev Issue := FieldPath × Str

/-- Emit a single issue when `b` holds. -/
def issueIf (b : Bool) (i : Issue) : List Issue := if b then [i] else []

theorem mem_issueIf (x : Issue) (b : Bool) (i : Issue) :
    x ∈ issueIf b i ↔ b = true ∧ x = i := by
  cases b <;> simp [issueIf]

/-- `/^[a-zA-Z\s]+$/` from the name rule: nonempty, all letters or
whitespace. -/
def nameRegexOk (n : Str) : Bool :=
  !n.isEmpty && n.all (fun c => isAsciiLowerChar c || isAsciiUpperChar c || isJsWhitespaceChar c)

/-- Issues of the registration `name` field: min 2, max 50, letters/spaces
only. -/
def nameIssues (n : Str) : List Issue :=
  issueIf (decide (n.length < 2)) (.name, "Name must be at least 2 characters long".toList) ++
  issueIf (decide (50 < n.length)) (.name, "Name must be less than 50 characters".toList) ++
  issueIf (!nameRegexOk n) (.name, "Name can only contain letters and spaces".toList)

/-- Issues of an email field checked `.email().min(1).max(254)` with no
transform (registration and login schemas). -/
def emailIssues (emailOk : Str → Bool) (e : Str) : List Issue :=
  issueIf (!emailOk e) (.email, "Please enter a valid email address".toList) ++
  issueIf (decide (e.length < 1)) (.email, "Email is required".toList) ++
  issueIf (decide (254 < e.length)) (.email, "Email is too long".toList)

/-- Issues of the shared password complexity rule (`passwordSchema`):
min 8 and one regex per character class. -/
def passwordIssues (p : Str) : List Issue :=
  issueIf (decide (p.length < 8)) (.password, "Password must be at least 8 characters long".toList) ++
  issueIf (!p.any isAsciiLowerChar) (.password, "Password must contain at least one lowercase letter".toList) ++
  issueIf (!p.any isAsciiUpperChar) (.password, "Password must contain at least one uppercase letter".toList) ++
  issueIf (!p.any isAsciiDigitChar) (.password, "Password must contain at least one number".toList) ++
  issueIf (!p.any isSymbolChar) (.password, "Password must contain at least one special character".toList)

/-- Issues of the `confirmPassword` field check (`.min(1)`). -/
def confirmPasswordIssues (c : Str) : List Issue :=
  issueIf (decide (c.length < 1)) (.confirmPassword, "Please confirm your password".toList)

/-- Input record of the registration form. -/
structure RegisterFormData where
  name : Str
  email : Str
  password : Str
  confirmPassword : Str
  deriving Repr, DecidableEq

/-- All issues produced by `registerSchema` on `data`: the four field
checks in shape order, then the `.refine` equality of password and
confirmation, whose issue is routed to the `confirmPassword` path. -/
def registerIssues (emailOk : Str → Bool) (data : RegisterFormData) : List Issue :=
  nameIssues data.name ++
  emailIssues emailOk data.email ++
  passwordIssues data.password ++
  confirmPasswordIssues data.confirmPassword ++
  issueIf (!strEq data.password data.confirmPassword)
    (.confirmPassword, "Passwords don't match".toList)

/-- The registration form submits its sign-up request only when
`registerSchema` reports no issue (react-hook-form invokes the submit
handler only on successful resolver validation). The call payload is
(email, password, name). -/
def registerSubmitCalls (emailOk : Str → Bool) (data : RegisterFormData) :
    List (Str × Str × Str) :=
  if registerIssues emailOk data = [] then [(data.email, data.password, data.name)] else []

/-- `/^\d+$/` from `otpSchema`: nonempty and all digits. -/
def otpRegexOk (s : Str) : Bool := !s.isEmpty && s.all isAsciiDigitChar

/-- Issues produced by `otpSchema` (`.length(6).regex(/^\d+$/)`). -/
def otpIssues (s : Str) : List Issue :=
  issueIf (decide (s.length ≠ 6)) (.otp, "OTP must be exactly 6 digits".toList) ++
  issueIf (!otpRegexOk s) (.otp, "OTP must contain only numbers".toList)

/-- The OTP form's submission: `handleSubmit(onSubmit)` invokes the
`onVerify` callback with the entered code only when `otpSchema`
validation passes; otherwise no callback (and hence no network call)
happens. -/
def otpFormVerifyCalls (s : Str) : List Str :=
  if otpIssues s = [] then [s] else []

/-- `forgotPasswordSchema.email` from
`src/lib/validation/forgot-password-schema.ts`:
`.email().min(1).max(254).toLowerCase().trim()` — the checks see the raw
input, then the two transforms run in order, so the parsed value is the
input lowercased and then trimmed. -/
def forgotPasswordParse (emailOk : Str → Bool) (input : Str) : Option Str :=
  if emailOk input ∧ 1 ≤ input.length ∧ input.length ≤ 254 then
    some (jsTrim (jsToLower input))
  else none

/-- `loginSchema.email` from `src/lib/validation/login-schema.ts`: the
same checks with no transform, so an accepted input parses to itself. -/
def loginEmailParse (emailOk : Str → Bool) (input : Str) : Option Str :=
  if emailOk input ∧ 1 ≤ input.length ∧ input.length ≤ 254 then some input else none

/-- The email field of `registerSchema`: checks only, no transform. -/
def registerEmailParse (emailOk : Str → Bool) (input : Str) : Option Str :=
  if emailIssues emailOk input = [] then some input else none

/-! ## Password-recovery flow state machine

`ForgotPasswordForm` from `src/components/auth/forgot-password-form.tsx`:
the `PasswordResetState` record (from the shared auth types module), the
four async handlers, and back navigation, folded into one step function
over user events. Each awaited auth-service call is modelled by the
response it resolved with, carried on the event; the list of calls a step
issues is returned alongside the new state. -/

/-- `PasswordResetStep` enum from the auth types module. -/
inductive PasswordResetStep where
  | EMAIL
  | OTP_VERIFICATION
  | RESET_PASSWORD
  deriving Repr, DecidableEq

/-- Position of a step in the forward order of the flow. -/
def stepIdx : PasswordResetStep → Nat
  | .EMAIL => 0
  | .OTP_VERIFICATION => 1
  | .RESET_PASSWORD => 2

/-- `PasswordResetState` record from the auth types module. -/
structure PasswordResetState where
  step : PasswordResetStep
  email : Str
  otp : Str
  isLoading : Bool
  error : Option Str
  success : Option Str
  deriving Repr, DecidableEq

/-- The state installed by `useState` at mount. -/
def initialResetState : PasswordResetState :=
  { step := .EMAIL, email := [], otp := [], isLoading := false,
    error := none, success := none }

/-- The error object of an auth-service response; its `message` may be
absent (JS `undefined`). -/
structure ApiError where
  message : Option Str
  deriving Repr, DecidableEq

/-- An auth-service response as the handlers inspect it: only the
presence and content of `response.error` matter. -/
structure ApiResponse where
  error : Option ApiError
  deriving Repr, DecidableEq

/-- An outgoing auth-service call. -/
inductive AuthCall where
  | forgetPasswordEmailOtp (email : Str)
  | emailOtpResetPassword (email otp password : Str)
  deriving Repr, DecidableEq

/-- JS `x || d` on an optional string: `undefined` and the empty string
are falsy. -/
def jsOrElse (m : Option Str) (d : Str) : Str :=
  match m with
  | some s => if s.isEmpty then d else s
  | none => d

/-- The substring test of `handlePasswordReset`:
`message?.includes("OTP") || message?.includes("code") ||
message?.includes("invalid")` (an absent message is falsy). -/
def resetErrorIndicatesBadOtp (m : Option Str) : Bool :=
  match m with
  | some s =>
      strIncludes s ("OTP".toList) || strIncludes s ("code".toList) ||
      strIncludes s ("invalid".toList)
  | none => false

/-- `clearAlerts`: null both messages. -/
def clearAlerts (st : PasswordResetState) : PasswordResetState :=
  { st with error := none, success := none }

/-- `onSubmitEmail` after validation passed with parsed email `email`,
resolved with `resp`: alerts are cleared first; success moves to
`OTP_VERIFICATION` and stores the email; failure surfaces the error
message. -/
def onSubmitEmailCore (st : PasswordResetState) (email : Str) (resp : ApiResponse) :
    PasswordResetState :=
  let s1 := { clearAlerts st with isLoading := true }
  match resp.error with
  | none =>
      { s1 with
        step := .OTP_VERIFICATION
        email := email
        isLoading := false
        success := some ("Verification code sent! Check your email.".toList) }
  | some err =>
      { s1 with
        isLoading := false
        error := some (jsOrElse err.message ("Failed to send verification code".toList)) }

/-- `handleOtpVerification`: no auth-service call is made; the code is
stored and the flow moves forward to `RESET_PASSWORD` unconditionally. -/
def handleOtpVerificationCore (st : PasswordResetState) (otp : Str) :
    PasswordResetState :=
  { st with
    step := .RESET_PASSWORD
    otp := otp
    isLoading := false
    success := some ("Code verified! Now create your new password.".toList) }

/-- `handlePasswordReset` resolved with `resp`: the reset call carries the
state's email and stored OTP plus the new password. An error whose
message mentions OTP/code/invalid steps the flow back to
`OTP_VERIFICATION`, sets an error and nulls the success message; any
other error stays on the step with an error; success sets the success
message and nulls the error. -/
def handlePasswordResetCore (st : PasswordResetState) (password : Str)
    (resp : ApiResponse) : PasswordResetState × List AuthCall :=
  let s1 := { st with isLoading := true }
  let call := AuthCall.emailOtpResetPassword st.email st.otp password
  match resp.error with
  | some err =>
      if resetErrorIndicatesBadOtp err.message then
        ({ s1 with
           step := .OTP_VERIFICATION
           isLoading := false
           error := some ("Invalid verification code. Please try again.".toList)
           success := none }, [call])
      else
        ({ s1 with
           isLoading := false
           error := some (jsOrElse err.message ("Failed to reset password".toList)) },
         [call])
  | none =>
      ({ s1 with
         isLoading := false
         success := some ("Password reset successful! Redirecting to login...".toList)
         error := none }, [call])

/-- `handleResendOtp` resolved with `resp`: success sets the success
message without touching the error; failure sets the error message
without touching the success. -/
def handleResendOtpCore (st : PasswordResetState) (resp : ApiResponse) :
    PasswordResetState :=
  match resp.error with
  | none => { st with success := some ("Verification code sent successfully!".toList) }
  | some err =>
      { st with error := some (jsOrElse err.message ("Failed to resend code".toList)) }

/-- `handleBack`: contextual back navigation; both alerts are cleared.
From `EMAIL` the component navigates away, leaving the state as is. -/
def handleBack (st : PasswordResetState) : PasswordResetState :=
  match st.step with
  | .OTP_VERIFICATION => { st with step := .EMAIL, error := none, success := none }
  | .RESET_PASSWORD => { st with step := .OTP_VERIFICATION, error := none, success := none }
  | .EMAIL => st

/-- User events driving the recovery flow; each submission event carries
the raw form input and, where a call is awaited, the response it
resolved with. -/
inductive ResetEvent where
  | emailSubmit (raw : Str) (resp : ApiResponse)
  | otpSubmit (raw : Str)
  | resendOtp (resp : ApiResponse)
  | resetSubmit (password : Str) (resp : ApiResponse)
  | back
  | closeAlert
  deriving Repr, DecidableEq

/-- Whether an event actually reaches its handler in state `st`: the
corresponding sub-form must be the one rendered for the current step,
submission buttons are disabled while loading, and the client-side
schema must accept the raw input. -/
def eventFires (emailOk : Str → Bool) (st : PasswordResetState) : ResetEvent → Bool
  | .emailSubmit raw _ =>
      st.step == .EMAIL && !st.isLoading && (forgotPasswordParse emailOk raw).isSome
  | .otpSubmit raw =>
      st.step == .OTP_VERIFICATION && !st.isLoading && (otpIssues raw).isEmpty
  | .resendOtp _ => st.step == .OTP_VERIFICATION
  | .resetSubmit _ _ => st.step == .RESET_PASSWORD && !st.isLoading
  | .back =>
      (st.step == .OTP_VERIFICATION || st.step == .RESET_PASSWORD) && !st.isLoading
  | .closeAlert => true

/-- One step of the recovery flow: the next state and the auth-service
calls issued. An event that does not fire leaves the state unchanged and
issues no call. -/
def resetStep (emailOk : Str → Bool) (st : PasswordResetState) (e : ResetEvent) :
    PasswordResetState × List AuthCall :=
  if eventFires emailOk st e then
    match e with
    | .emailSubmit raw resp =>
        match forgotPasswordParse emailOk raw with
        | some email => (onSubmitEmailCore st email resp, [.forgetPasswordEmailOtp email])
        | none => (st, [])
    | .otpSubmit raw => (handleOtpVerificationCore st raw, [])
    | .resendOtp resp => (handleResendOtpCore st resp, [.forgetPasswordEmailOtp st.email])
    | .resetSubmit password resp => handlePasswordResetCore st password resp
    | .back => (handleBack st, [])
    | .closeAlert => (clearAlerts st, [])
  else (st, [])

/-- The flow state after a sequence of events from the mount state. -/
def runReset (emailOk : Str → Bool) (events : List ResetEvent) : PasswordResetState :=
  events.foldl (fun s e => (resetStep emailOk s e).1) initialResetState

/-! ## Display masking of the email on the OTP step

`formatEmail` from `otp-verification-form.tsx`: split at `"@"`, keep a
local part of at most 2 characters as is, otherwise star out its
interior. The destructured `split("@")` is embedded as take/drop at the
first `'@'`, which agrees with JS on every input holding exactly one
`'@'` (the only inputs the claims range over). -/

def formatEmail (email : Str) : Str :=
  let username := email.takeWhile (fun c => c != '@')
  let domain := (email.dropWhile (fun c => c != '@')).tail
  if username.length ≤ 2 then email
  else
    username.take 1 ++ List.replicate (username.length - 2) '*' ++
      username.drop (username.length - 1) ++ '@' :: domain

/-! ## Route-guarding middleware

The default `middleware` of the Next.js middleware module: classify the
path by route lists, then gate on session-cookie presence only (no role
is inspected anywhere). A redirect is embedded structurally as the target
path plus its query parameters; `/login` redirects carry the original
path in `callbackUrl`. -/

def publicRoutes : List Str :=
  ["/".toList, "/register".toList, "/login".toList, "/forgot-password".toList,
   "/reset-password".toList, "/about".toList, "/contact".toList,
   "/privacy".toList, "/terms".toList]

def authRoutes : List Str :=
  ["/login".toList, "/register".toList, "/forgot-password".toList,
   "/reset-password".toList, "/verify-email".toList]

def protectedRoutes : List Str :=
  ["/dashboard".toList, "/profile".toList, "/settings".toList, "/admin".toList]

def adminRoutes : List Str := ["/admin".toList]

/-- `pathname === route || pathname.startsWith(route + "/")`. -/
def routeMatch (pathname route : Str) : Bool :=
  strEq pathname route || strStartsWith pathname (route ++ "/".toList)

/-- The early-exit test: API routes, build internals, the favicon and any
path containing a dot bypass the guard. -/
def skipCheck (pathname : Str) : Bool :=
  strStartsWith pathname ("/api/".toList) ||
  strStartsWith pathname ("/_next/".toList) ||
  strStartsWith pathname ("/favicon.ico".toList) ||
  strIncludes pathname (".".toList)

/-- Outcome of the middleware on one request. -/
inductive MwDecision where
  | next
  | redirect (path : Str) (query : List (Str × Str))
  deriving Repr, DecidableEq

/-- The default `middleware(request)`, as a function of the request path
and of whether `getSessionCookie` found a session cookie. -/
def middleware (pathname : Str) (hasSessionCookie : Bool) : MwDecision :=
  if skipCheck pathname then .next
  else
    let isAuthRoute := authRoutes.any (routeMatch pathname)
    let isProtectedRoute := protectedRoutes.any (routeMatch pathname)
    let isAdminRoute := adminRoutes.any (routeMatch pathname)
    if hasSessionCookie && isAuthRoute then
      .redirect ("/dashboard".toList) []
    else if !hasSessionCookie && (isProtectedRoute || isAdminRoute) then
      .redirect ("/login".toList) [("callbackUrl".toList, pathname)]
    else .next

/-! ## Theorems settling the claims -/

/-- C2 (counterexample): the claim "for every password shorter than 8 the
score is 0 or 1" fails at the concrete password "aA1!": it is 4
characters long, carries all four character classes, and scores 2. -/
theorem shortPassword_score_two_example :
    ("aA1!".toList).length < 8 ∧ (analyzePassword ("aA1!".toList)).score = 2 ∧
    ¬ ((analyzePassword ("aA1!".toList)).score = 0 ∨
       (analyzePassword ("aA1!".toList)).score = 1) := by decide

/-- C2 (amended): for every password of length strictly less than 8, the
strength score is at most 2 (so in particular it is never ≥ 3): the two
length points are missed and the variety rules contribute at most 2. -/
theorem shortPassword_score_le_two (p : Str) (h : p.length < 8) :
    (analyzePassword p).score ≤ 2 := by
  unfold analyzePassword
  split
  · simp
  · have h8 : ¬ (8 ≤ p.length) := by omega
    have h12 : ¬ (12 ≤ p.length) := by omega
    simp only [h8, h12, if_false]
    split_ifs <;> simp

theorem shortPassword_score_le_two_witness :
    ("abc".toList).length < 8 ∧ (analyzePassword ("abc".toList)).score ≤ 2 :=
  ⟨by decide, shortPassword_score_le_two ("abc".toList) (by decide)⟩

set_option maxRecDepth 10000 in
/-- C8: starting from the mount state (timer 60, resend disabled), after
exactly 60 one-second ticks and no other interaction the resend action is
enabled and the displayed timer is 0; on every earlier tick resend is
still disabled and the timer is still positive, so the enabling
transition happens exactly once, on the same tick that brings the timer
to 0. -/
theorem otpCountdown_enables_after_sixty_ticks :
    otpTickIter 60 = { resendTimer := 0, canResend := true } ∧
    (∀ k, k < 60 → (otpTickIter k).canResend = false ∧ 0 < (otpTickIter k).resendTimer) ∧
    (∀ k, k ≤ 60 → ((otpTickIter k).canResend = true ↔ k = 60)) := by decide

/-- C7: an OTP input that is not exactly 6 characters or contains a
non-digit fails `otpSchema` (the issue list is nonempty), and the OTP
form therefore never invokes the `onVerify` callback on it — no network
call happens for that input. -/
theorem otpForm_rejects_malformed (s : Str)
    (h : ¬ (s.length = 6 ∧ s.all isAsciiDigitChar = true)) :
    otpIssues s ≠ [] ∧ otpFormVerifyCalls s = [] := by
  have hne : otpIssues s ≠ [] := by
    by_cases h6 : s.length = 6
    · have hd : s.all isAsciiDigitChar = false := by
        cases hall : s.all isAsciiDigitChar
        · rfl
        · exact absurd ⟨h6, hall⟩ h
      have hempty : s.isEmpty = false := by
        cases s with
        | nil => simp at h6
        | cons a l => rfl
      simp [otpIssues, issueIf, otpRegexOk, h6, hd, hempty]
    · have hd6 : (decide (s.length ≠ 6)) = true := by simp [h6]
      simp [otpIssues, issueIf, hd6]
  exact ⟨hne, by simp [otpFormVerifyCalls, hne]⟩

theorem otpForm_rejects_malformed_witness :
    (¬ (("12345a".toList).length = 6 ∧ ("12345a".toList).all isAsciiDigitChar = true)) ∧
    otpIssues ("12345a".toList) ≠ [] ∧ otpFormVerifyCalls ("12345a".toList) = [] :=
  ⟨by decide, otpForm_rejects_malformed ("12345a".toList) (by decide)⟩

theorem takeWhile_append_at (u d : Str) (hu : '@' ∉ u) :
    (u ++ '@' :: d).takeWhile (fun c => c != '@') = u := by
  induction u with
  | nil => simp [List.takeWhile_cons]
  | cons c cs ih =>
    have hc : c ≠ '@' := fun h => hu (h ▸ List.mem_cons_self c cs)
    have hcs : '@' ∉ cs := fun h => hu (List.mem_cons_of_mem c h)
    simp [List.takeWhile_cons, hc, ih hcs]

theorem dropWhile_append_at (u d : Str) (hu : '@' ∉ u) :
    (u ++ '@' :: d).dropWhile (fun c => c != '@') = '@' :: d := by
  induction u with
  | nil => simp [List.dropWhile_cons]
  | cons c cs ih =>
    have hc : c ≠ '@' := fun h => hu (h ▸ List.mem_cons_self c cs)
    have hcs : '@' ∉ cs := fun h => hu (List.mem_cons_of_mem c h)
    simp [List.dropWhile_cons, hc, ih hcs]

/-- C9: on an email with exactly one `'@'` (local part `u`, domain `d`),
`formatEmail` returns the input unchanged when the local part has at most
2 characters; otherwise it keeps the first and last characters of the
local part, stars out its interior, leaves the domain untouched, and
preserves the total length. -/
theorem formatEmail_masks_local_part (u d : Str) (hu : '@' ∉ u) (_hd : '@' ∉ d) :
    (u.length ≤ 2 → formatEmail (u ++ '@' :: d) = u ++ '@' :: d) ∧
    (2 < u.length →
      formatEmail (u ++ '@' :: d) =
        u.take 1 ++ List.replicate (u.length - 2) '*' ++
          u.drop (u.length - 1) ++ '@' :: d ∧
      (formatEmail (u ++ '@' :: d)).length = (u ++ '@' :: d).length) := by
  unfold formatEmail
  rw [takeWhile_append_at u d hu, dropWhile_append_at u d hu]
  simp only [List.tail_cons]
  constructor
  · intro h
    rw [if_pos h]
  · intro h
    rw [if_neg (by omega)]
    refine ⟨rfl, ?_⟩
    simp only [List.length_append, List.length_take, List.length_replicate,
      List.length_drop, List.length_cons]
    omega

theorem formatEmail_masks_local_part_witness :
    ('@' ∉ "jane".toList) ∧ ('@' ∉ "example.com".toList) ∧
    formatEmail ("jane@example.com".toList) = "j**e@example.com".toList :=
  ⟨by decide, by decide,
    by
      have h := (formatEmail_masks_local_part ("jane".toList) ("example.com".toList)
        (by decide) (by decide)).2 (by decide)
      rw [show ("jane".toList ++ '@' :: "example.com".toList) =
        "jane@example.com".toList from rfl] at h
      rw [h.1]
      decide⟩

/-- C6: for every request path starting with `/admin/` and containing no
dot (so it is not skipped as an asset, and it cannot carry an API or
internal prefix), the guard without a session cookie redirects to
`/login` carrying the original path as the `callbackUrl` query parameter,
and with a session cookie present it falls through to `next` unmodified —
the middleware takes no role information at all, so no role check is
involved. -/
theorem adminPath_not_auth (t : Str) :
    authRoutes.any (routeMatch ("/admin/".toList ++ t)) = false := rfl

theorem adminPath_protected (t : Str) :
    protectedRoutes.any (routeMatch ("/admin/".toList ++ t)) = true := rfl

theorem adminPath_admin (t : Str) :
    adminRoutes.any (routeMatch ("/admin/".toList ++ t)) = true := rfl

theorem adminPath_guard (pathname : Str)
    (hpre : strStartsWith pathname ("/admin/".toList) = true)
    (hdot : strIncludes pathname (".".toList) = false) :
    middleware pathname false =
      MwDecision.redirect ("/login".toList) [("callbackUrl".toList, pathname)] ∧
    middleware pathname true = MwDecision.next := by
  obtain ⟨t, rfl⟩ := (strStartsWith_iff pathname ("/admin/".toList)).mp hpre
  have hskip : skipCheck ("/admin/".toList ++ t) = false := hdot
  have hAuth := adminPath_not_auth t
  have hProt := adminPath_protected t
  have hAdm := adminPath_admin t
  constructor
  · unfold middleware
    rw [hskip]
    simp only [hAuth, hProt, hAdm]
    simp
  · unfold middleware
    rw [hskip]
    simp only [hAuth, hProt, hAdm]
    simp

theorem adminPath_guard_witness :
    strStartsWith ("/admin/anything".toList) ("/admin/".toList) = true ∧
    strIncludes ("/admin/anything".toList) (".".toList) = false ∧
    middleware ("/admin/anything".toList) false =
      MwDecision.redirect ("/login".toList)
        [("callbackUrl".toList, "/admin/anything".toList)] ∧
    middleware ("/admin/anything".toList) true = MwDecision.next :=
  ⟨by decide, by decide,
    (adminPath_guard ("/admin/anything".toList) (by decide) (by decide)).1,
    (adminPath_guard ("/admin/anything".toList) (by decide) (by decide)).2⟩

/-- Every resolution of `handlePasswordReset` issues exactly the one
reset call built from the state's email, its stored OTP and the submitted
password. -/
theorem handlePasswordResetCore_calls (st : PasswordResetState) (pw : Str)
    (resp : ApiResponse) :
    (handlePasswordResetCore st pw resp).2 =
      [AuthCall.emailOtpResetPassword st.email st.otp pw] := by
  unfold handlePasswordResetCore
  cases resp.error with
  | none => rfl
  | some err =>
    by_cases h : resetErrorIndicatesBadOtp err.message = true
    · simp only [h, if_true]
    · simp only [h]
      rfl

/-- C1: a `RESET_PASSWORD` submission whose service response is an error
with a message containing the substring "invalid" moves the recovery flow
backward to `OTP_VERIFICATION` (strictly earlier in the step order, so
neither forward nor staying put), sets the invalid-code error message and
clears the success message. -/
theorem resetSubmit_invalid_regresses (emailOk : Str → Bool)
    (st : PasswordResetState) (pw m : Str) (resp : ApiResponse) (err : ApiError)
    (hstep : st.step = .RESET_PASSWORD) (hload : st.isLoading = false)
    (herr : resp.error = some err) (hmsg : err.message = some m)
    (hinv : strIncludes m ("invalid".toList) = true) :
    (resetStep emailOk st (.resetSubmit pw resp)).1.step = .OTP_VERIFICATION ∧
    stepIdx (resetStep emailOk st (.resetSubmit pw resp)).1.step <
      stepIdx .RESET_PASSWORD ∧
    (resetStep emailOk st (.resetSubmit pw resp)).1.error =
      some ("Invalid verification code. Please try again.".toList) ∧
    (resetStep emailOk st (.resetSubmit pw resp)).1.success = none := by
  have hbad : resetErrorIndicatesBadOtp err.message = true := by
    rw [hmsg]
    simp only [resetErrorIndicatesBadOtp, Bool.or_eq_true]
    exact Or.inr hinv
  simp [resetStep, eventFires, hstep, hload, handlePasswordResetCore, herr, hbad, stepIdx]

theorem resetSubmit_invalid_regresses_witness :
    ((resetStep (fun _ => true)
        { initialResetState with step := .RESET_PASSWORD }
        (.resetSubmit ("Newpass1!".toList)
          ⟨some ⟨some ("invalid otp".toList)⟩⟩)).1.step = .OTP_VERIFICATION) ∧
    ((resetStep (fun _ => true)
        { initialResetState with step := .RESET_PASSWORD }
        (.resetSubmit ("Newpass1!".toList)
          ⟨some ⟨some ("invalid otp".toList)⟩⟩)).1.success = none) := by
  have h := resetSubmit_invalid_regresses (fun _ => true)
    { initialResetState with step := .RESET_PASSWORD }
    ("Newpass1!".toList) ("invalid otp".toList)
    ⟨some ⟨some ("invalid otp".toList)⟩⟩ ⟨some ("invalid otp".toList)⟩
    rfl rfl rfl rfl (by decide)
  exact ⟨h.1, h.2.2.2⟩

/-- C4: a format-valid OTP submitted on the `OTP_VERIFICATION` step of
the recovery flow triggers no auth-service call; the flow unconditionally
stores the entered code and moves forward to `RESET_PASSWORD`, and the
eventual reset-password call built on the resulting state carries exactly
that stored code (together with the unchanged flow email). -/
theorem otpSubmit_accepted_locally (emailOk : Str → Bool)
    (st : PasswordResetState) (otp : Str)
    (hstep : st.step = .OTP_VERIFICATION) (hload : st.isLoading = false)
    (hvalid : otpIssues otp = []) :
    (resetStep emailOk st (.otpSubmit otp)).2 = [] ∧
    (resetStep emailOk st (.otpSubmit otp)).1.step = .RESET_PASSWORD ∧
    (resetStep emailOk st (.otpSubmit otp)).1.otp = otp ∧
    (∀ pw resp,
      (resetStep emailOk ((resetStep emailOk st (.otpSubmit otp)).1)
          (.resetSubmit pw resp)).2 =
        [AuthCall.emailOtpResetPassword st.email otp pw]) := by
  have h1 : resetStep emailOk st (.otpSubmit otp) = (handleOtpVerificationCore st otp, []) := by
    simp [resetStep, eventFires, hstep, hload, hvalid]
  rw [h1]
  refine ⟨rfl, rfl, rfl, ?_⟩
  intro pw resp
  have h2 : resetStep emailOk (handleOtpVerificationCore st otp) (.resetSubmit pw resp) =
      handlePasswordResetCore (handleOtpVerificationCore st otp) pw resp := by
    simp [resetStep, eventFires, handleOtpVerificationCore]
  rw [h2, handlePasswordResetCore_calls]
  rfl

theorem otpSubmit_accepted_locally_witness :
    otpIssues ("123456".toList) = [] ∧
    (resetStep (fun _ => true)
        { initialResetState with step := .OTP_VERIFICATION }
        (.otpSubmit ("123456".toList))).2 = [] ∧
    (resetStep (fun _ => true)
        { initialResetState with step := .OTP_VERIFICATION }
        (.otpSubmit ("123456".toList))).1.otp = "123456".toList := by
  have h := otpSubmit_accepted_locally (fun _ => true)
    { initialResetState with step := .OTP_VERIFICATION }
    ("123456".toList) rfl rfl (by decide)
  exact ⟨by decide, h.1, h.2.2.1⟩

/-- At most one of the error and success messages is non-null. -/
def alertExclusive (st : PasswordResetState) : Prop :=
  st.error = none ∨ st.success = none

/-- The recovery-flow events that do clear the other message when they
set one: email submission (it clears both alerts first), back
navigation, dismissing an alert, and a reset submission whose response
is a success or an invalid-code error. OTP acceptance, resending the
code, and a generic reset failure are not among them. -/
def eventClearsOtherAlert : ResetEvent → Bool
  | .emailSubmit _ _ => true
  | .back => true
  | .closeAlert => true
  | .resetSubmit _ resp =>
      match resp.error with
      | none => true
      | some err => resetErrorIndicatesBadOtp err.message
  | _ => false

/-- C3 (counterexample): the claimed invariant "at most one of
error/success is non-null in every reachable state" fails on a concrete
reachable state: submit the email (code sent), enter the OTP, have the
reset rejected with an "invalid" message (error set, flow back on
`OTP_VERIFICATION`), then re-enter the OTP — the OTP acceptance sets the
success message without clearing the standing error, so both are
non-null. -/
theorem alertExclusivity_fails_example :
    ((runReset (fun _ => true)
        [ .emailSubmit ("a@b.cd".toList) ⟨none⟩,
          .otpSubmit ("123456".toList),
          .resetSubmit ("Newpass1!".toList) ⟨some ⟨some ("invalid code".toList)⟩⟩,
          .otpSubmit ("123456".toList) ]).error.isSome = true) ∧
    ((runReset (fun _ => true)
        [ .emailSubmit ("a@b.cd".toList) ⟨none⟩,
          .otpSubmit ("123456".toList),
          .resetSubmit ("Newpass1!".toList) ⟨some ⟨some ("invalid code".toList)⟩⟩,
          .otpSubmit ("123456".toList) ]).success.isSome = true) := by decide

/-- C3 (amended): the exclusivity is maintained by exactly the
transitions that clear the other message — email submission, back
navigation, alert dismissal, and reset submissions answered with success
or an invalid-code error; the remaining transitions (OTP acceptance,
resend, generic reset failure) can leave both messages set, as the
counterexample shows. -/
theorem alertExclusive_after_clearing_events (emailOk : Str → Bool)
    (st : PasswordResetState) (e : ResetEvent)
    (hfires : eventFires emailOk st e = true)
    (hclears : eventClearsOtherAlert e = true) :
    alertExclusive (resetStep emailOk st e).1 := by
  cases e with
  | emailSubmit raw resp =>
    simp only [eventFires, Bool.and_eq_true, beq_iff_eq, Bool.not_eq_true',
      Option.isSome_iff_exists] at hfires
    obtain ⟨⟨hstep, hload⟩, email, hparse⟩ := hfires
    simp only [resetStep, eventFires, hstep, hload, hparse]
    simp only [beq_self_eq_true, Bool.not_false, Bool.and_self, if_true]
    obtain ⟨oerr⟩ := resp
    cases oerr with
    | none => exact Or.inl rfl
    | some err => exact Or.inr rfl
  | otpSubmit raw => simp [eventClearsOtherAlert] at hclears
  | resendOtp resp => simp [eventClearsOtherAlert] at hclears
  | resetSubmit pw resp =>
    simp only [eventFires, Bool.and_eq_true, beq_iff_eq, Bool.not_eq_true'] at hfires
    obtain ⟨hstep, hload⟩ := hfires
    simp only [resetStep, eventFires, hstep, hload]
    simp only [beq_self_eq_true, Bool.not_false, Bool.and_self, if_true]
    cases hr : resp.error with
    | none => simp [handlePasswordResetCore, hr, alertExclusive]
    | some err =>
      have hbad : resetErrorIndicatesBadOtp err.message = true := by
        simpa [eventClearsOtherAlert, hr] using hclears
      simp [handlePasswordResetCore, hr, hbad, alertExclusive]
  | back =>
    simp only [eventFires, Bool.and_eq_true, Bool.or_eq_true, beq_iff_eq,
      Bool.not_eq_true'] at hfires
    obtain ⟨hstep, hload⟩ := hfires
    cases hstep with
    | inl h => simp [resetStep, eventFires, h, hload, handleBack, alertExclusive]
    | inr h => simp [resetStep, eventFires, h, hload, handleBack, alertExclusive]
  | closeAlert => simp [resetStep, eventFires, clearAlerts, alertExclusive]

theorem alertExclusive_after_clearing_events_witness :
    eventFires (fun _ => true) initialResetState
      (.emailSubmit ("a@b.cd".toList) ⟨none⟩) = true ∧
    eventClearsOtherAlert (.emailSubmit ("a@b.cd".toList) ⟨none⟩) = true ∧
    alertExclusive (resetStep (fun _ => true) initialResetState
      (.emailSubmit ("a@b.cd".toList) ⟨none⟩)).1 :=
  ⟨by decide, by decide,
    alertExclusive_after_clearing_events (fun _ => true) initialResetState
      (.emailSubmit ("a@b.cd".toList) ⟨none⟩) (by decide) (by decide)⟩

theorem strEq_iff (s t : Str) : strEq s t = true ↔ s = t := by
  induction s generalizing t with
  | nil => cases t <;> simp [strEq]
  | cons c cs ih =>
    cases t with
    | nil => simp [strEq]
    | cons d ds => simp [strEq, ih]

theorem mem_nameIssues_path (n : Str) (x : Issue) (h : x ∈ nameIssues n) :
    x.1 = FieldPath.name := by
  unfold nameIssues at h
  rcases List.mem_append.mp h with h | h
  · rcases List.mem_append.mp h with h | h <;>
      · obtain ⟨-, rfl⟩ := (mem_issueIf _ _ _).mp h
        rfl
  · obtain ⟨-, rfl⟩ := (mem_issueIf _ _ _).mp h
    rfl

theorem mem_emailIssues_path (emailOk : Str → Bool) (e : Str) (x : Issue)
    (h : x ∈ emailIssues emailOk e) : x.1 = FieldPath.email := by
  unfold emailIssues at h
  rcases List.mem_append.mp h with h | h
  · rcases List.mem_append.mp h with h | h <;>
      · obtain ⟨-, rfl⟩ := (mem_issueIf _ _ _).mp h
        rfl
  · obtain ⟨-, rfl⟩ := (mem_issueIf _ _ _).mp h
    rfl

theorem mem_confirmPasswordIssues_path (c : Str) (x : Issue)
    (h : x ∈ confirmPasswordIssues c) : x.1 = FieldPath.confirmPassword := by
  unfold confirmPasswordIssues at h
  obtain ⟨-, rfl⟩ := (mem_issueIf _ _ _).mp h
  rfl

theorem mem_passwordIssues_msg (p : Str) (x : Issue) (h : x ∈ passwordIssues p) :
    x.2 ≠ "Passwords don't match".toList := by
  unfold passwordIssues at h
  rcases List.mem_append.mp h with h | h
  · rcases List.mem_append.mp h with h | h
    · rcases List.mem_append.mp h with h | h
      · rcases List.mem_append.mp h with h | h <;>
          · obtain ⟨-, rfl⟩ := (mem_issueIf _ _ _).mp h
            decide
      · obtain ⟨-, rfl⟩ := (mem_issueIf _ _ _).mp h
        decide
    · obtain ⟨-, rfl⟩ := (mem_issueIf _ _ _).mp h
      decide
  · obtain ⟨-, rfl⟩ := (mem_issueIf _ _ _).mp h
    decide

/-- C5: a registration input whose confirmation differs from the password
is rejected by `registerSchema` (the issue list is nonempty), so the
sign-up request is never issued, and the mismatch issue is attached to
the `confirmPassword` field: it appears there, and no issue carried by
the `password` field ever bears the mismatch message. -/
theorem registerMismatch_rejected (emailOk : Str → Bool) (data : RegisterFormData)
    (hne : data.password ≠ data.confirmPassword) :
    registerIssues emailOk data ≠ [] ∧
    registerSubmitCalls emailOk data = [] ∧
    (FieldPath.confirmPassword, "Passwords don't match".toList) ∈
      registerIssues emailOk data ∧
    (∀ m, (FieldPath.password, m) ∈ registerIssues emailOk data →
      m ≠ "Passwords don't match".toList) := by
  have hq : (!strEq data.password data.confirmPassword) = true := by
    cases h : strEq data.password data.confirmPassword
    · rfl
    · exact absurd ((strEq_iff _ _).mp h) hne
  have hmem : (FieldPath.confirmPassword, "Passwords don't match".toList) ∈
      registerIssues emailOk data := by
    unfold registerIssues
    exact List.mem_append.mpr (Or.inr ((mem_issueIf _ _ _).mpr ⟨hq, rfl⟩))
  refine ⟨List.ne_nil_of_mem hmem, ?_, hmem, ?_⟩
  · simp [registerSubmitCalls, List.ne_nil_of_mem hmem]
  · intro m hm
    unfold registerIssues at hm
    rcases List.mem_append.mp hm with h | h
    · rcases List.mem_append.mp h with h | h
      · rcases List.mem_append.mp h with h | h
        · rcases List.mem_append.mp h with h | h
          · exact absurd (mem_nameIssues_path _ _ h)
              (fun hh => FieldPath.noConfusion hh)
          · exact absurd (mem_emailIssues_path _ _ _ h)
              (fun hh => FieldPath.noConfusion hh)
        · exact mem_passwordIssues_msg _ _ h
      · exact absurd (mem_confirmPasswordIssues_path _ _ h)
          (fun hh => FieldPath.noConfusion hh)
    · obtain ⟨-, heq⟩ := (mem_issueIf _ _ _).mp h
      injection heq with h1 h2
      exact absurd h1 (by decide)

theorem registerMismatch_rejected_witness :
    (("Abcdef1!".toList : Str) ≠ "Abcdef2!".toList) ∧
    registerIssues (fun _ => true)
      { name := "Jane Doe".toList, email := "jane@example.com".toList,
        password := "Abcdef1!".toList, confirmPassword := "Abcdef2!".toList } ≠ [] ∧
    registerSubmitCalls (fun _ => true)
      { name := "Jane Doe".toList, email := "jane@example.com".toList,
        password := "Abcdef1!".toList, confirmPassword := "Abcdef2!".toList } = [] :=
  ⟨by decide,
    (registerMismatch_rejected (fun _ => true) _ (by decide)).1,
    (registerMismatch_rejected (fun _ => true) _ (by decide)).2.1⟩

theorem forgotPasswordParse_out (emailOk : Str → Bool) (input out : Str)
    (h : forgotPasswordParse emailOk input = some out) :
    out = jsTrim (jsToLower input) := by
  unfold forgotPasswordParse at h
  split at h
  · exact (Option.some.inj h).symm
  · exact absurd h (by simp)

theorem forgotPasswordParse_no_upper (emailOk : Str → Bool) (input out : Str)
    (h : forgotPasswordParse emailOk input = some out) :
    ∀ c ∈ out, isAsciiUpperChar c = false := by
  intro c hc
  rw [forgotPasswordParse_out emailOk input out h] at hc
  exact jsToLower_no_upper input c (mem_jsTrim c _ hc)

/-- No ASCII uppercase letter occurs in the email carried by the flow
state. -/
def emailNoUpper (st : PasswordResetState) : Prop :=
  ∀ c ∈ st.email, isAsciiUpperChar c = false

theorem resetStep_emailNoUpper (emailOk : Str → Bool) (st : PasswordResetState)
    (e : ResetEvent) (h : emailNoUpper st) :
    emailNoUpper (resetStep emailOk st e).1 := by
  unfold resetStep
  split
  · cases e with
    | emailSubmit raw resp =>
      cases hp : forgotPasswordParse emailOk raw with
      | none =>
        simp only [hp]
        exact h
      | some email =>
        simp only [hp]
        obtain ⟨oerr⟩ := resp
        cases oerr with
        | none =>
          intro c hc
          exact forgotPasswordParse_no_upper emailOk raw email hp c hc
        | some err => exact h
    | otpSubmit raw => exact h
    | resendOtp resp =>
      obtain ⟨oerr⟩ := resp
      cases oerr with
      | none => exact h
      | some err => exact h
    | resetSubmit pw resp =>
      obtain ⟨oerr⟩ := resp
      cases oerr with
      | none => exact h
      | some err =>
        unfold handlePasswordResetCore
        cases hbo : resetErrorIndicatesBadOtp err.message <;> simp only [hbo] <;>
          exact h
    | back =>
      cases hstep : st.step <;> simp only [handleBack, hstep] <;> exact h
    | closeAlert => exact h
  · exact h

theorem runReset_emailNoUpper (emailOk : Str → Bool) (events : List ResetEvent) :
    emailNoUpper (runReset emailOk events) := by
  have key : ∀ (es : List ResetEvent) (st : PasswordResetState), emailNoUpper st →
      emailNoUpper (es.foldl (fun s e => (resetStep emailOk s e).1) st) := by
    intro es
    induction es with
    | nil => exact fun st h => h
    | cons e es ih =>
      intro st h
      exact ih _ (resetStep_emailNoUpper emailOk st e h)
  exact key events initialResetState (by intro c hc; cases hc)

/-- C10: an input accepted by the forgot-password email schema parses to
the input lowercased and then trimmed, which carries no ASCII uppercase
letter; consequently the email stored in the recovery flow state never
contains one, in any reachable state. The login and registration email
schemas, by contrast, return an accepted input unchanged. -/
theorem forgotEmail_lowercased_trimmed (emailOk : Str → Bool) :
    (∀ input out, forgotPasswordParse emailOk input = some out →
      out = jsTrim (jsToLower input) ∧ ∀ c ∈ out, isAsciiUpperChar c = false) ∧
    (∀ input out, loginEmailParse emailOk input = some out → out = input) ∧
    (∀ input out, registerEmailParse emailOk input = some out → out = input) ∧
    (∀ events, ∀ c ∈ (runReset emailOk events).email, isAsciiUpperChar c = false) := by
  refine ⟨?_, ?_, ?_, ?_⟩
  · intro input out h
    exact ⟨forgotPasswordParse_out emailOk input out h,
      forgotPasswordParse_no_upper emailOk input out h⟩
  · intro input out h
    unfold loginEmailParse at h
    split at h
    · exact (Option.some.inj h).symm
    · exact absurd h (by simp)
  · intro input out h
    unfold registerEmailParse at h
    split at h
    · exact (Option.some.inj h).symm
    · exact absurd h (by simp)
  · intro events
    exact runReset_emailNoUpper emailOk events

theorem forgotEmail_lowercased_trimmed_witness :
    forgotPasswordParse (fun _ => true) (" User@Ex.COM ".toList) =
      some ("user@ex.com".toList) ∧
    ("user@ex.com".toList : Str) = jsTrim (jsToLower (" User@Ex.COM ".toList)) ∧
    loginEmailParse (fun _ => true) ("User@Ex.COM".toList) = some ("User@Ex.COM".toList) :=
  ⟨by decide,
    ((forgotEmail_lowercased_trimmed (fun _ => true)).1
      (" User@Ex.COM ".toList) ("user@ex.com".toList) (by decide)).1,
    by decide⟩

end EmetalsAuth
